import Mathlib

/-!
Verification of the `ADVClock` stopwatch utility (`src/advclock/advclock.hpp`).

The embedding models:
  * time points and durations as signed integers of nanoseconds;
  * the numeric return type of the conversion routine as exact rationals
    (the ideal semantics of the default `double` return type);
  * the clock source as an infinite stream of nanosecond samples together
    with an index of the next sample to be delivered by `now()`;
  * the process-wide `GLOBAL_CLOCK` epoch as a field of a process state that
    every instance operation threads through explicitly.
-/

namespace ADVClockModel

/-- `SecsInMin` constant from the source. -/
def SecsInMin : ℚ := 60

/-- `MinsInHour` constant from the source. -/
def MinsInHour : ℚ := 60

/-- `HoursInDay` constant from the source. -/
def HoursInDay : ℚ := 24

/-- `DaysInWeek` constant from the source. -/
def DaysInWeek : ℚ := 7

/-- `DaysInYear` constant from the source: the literal `365.24`. -/
def DaysInYear : ℚ := 36524 / 100

/-- `MonthsInYear` constant from the source. -/
def MonthsInYear : ℚ := 12

/-- The `Precision` enumeration of `ADVClock`, in source order. -/
inductive Precision
  | Nanoseconds
  | Microseconds
  | Milliseconds
  | Seconds
  | Minutes
  | Hours
  | Days
  | Weeks
  | Months
  | Years
deriving DecidableEq, Repr

/-- The underlying integer value of each `Precision` enumerator
(the source assigns `Nanoseconds = 0`, ..., `Months = 8`, `Years = 9`). -/
def Precision.toInt : Precision → Int
  | .Nanoseconds => 0
  | .Microseconds => 1
  | .Milliseconds => 2
  | .Seconds => 3
  | .Minutes => 4
  | .Hours => 5
  | .Days => 6
  | .Weeks => 7
  | .Months => 8
  | .Years => 9

/-- `ADVClock::RuntimeCastFromNano` with the default `double` return type,
over exact rationals.  `fromNanos` is the raw signed nanosecond count
(`int64_t(fromNanos.count())` in the source); `precision` is the integer
the `switch` dispatches on (the source casts the `char`-backed enum with
`(int)precision`, and the `default` label returns the raw count, so the
selector is modelled as an arbitrary integer). -/
def RuntimeCastFromNano (fromNanos : Int) (precision : Int) : ℚ :=
  let nanos : ℚ := (fromNanos : ℚ)
  let micros : ℚ := nanos / 1000
  let millis : ℚ := micros / 1000
  let secs : ℚ := millis / 1000
  let mins : ℚ := secs / SecsInMin
  let hours : ℚ := mins / MinsInHour
  let days : ℚ := hours / HoursInDay
  let weeks : ℚ := days / DaysInWeek
  let years : ℚ := days / DaysInYear
  let months : ℚ := years / MonthsInYear
  if precision = 0 then nanos
  else if precision = 1 then micros
  else if precision = 2 then millis
  else if precision = 3 then secs
  else if precision = 4 then mins
  else if precision = 5 then hours
  else if precision = 6 then days
  else if precision = 7 then weeks
  else if precision = 8 then months
  else if precision = 9 then years
  else nanos

/-- The clock source: an infinite stream of nanosecond time points and the
index of the next sample a `now()` call delivers. -/
structure ClockState where
  samples : Nat → Int
  idx : Nat

/-- `ClockType::now()`: deliver the next sample and advance the stream. -/
def ClockState.now (c : ClockState) : Int × ClockState :=
  (c.samples c.idx, { c with idx := c.idx + 1 })

/-- Process-wide state: the `GLOBAL_CLOCK.m_begin` epoch time point and the
shared clock source. -/
structure ProcState where
  epoch : Int
  clock : ClockState

/-- A stopwatch instance: its single field `m_begin`, the reference time
point captured at construction or at the last tare. -/
structure ADVClock where
  m_begin : Int
deriving DecidableEq, Repr

/-- Initialization of the static `GLOBAL_CLOCK` instance: its constructor
runs once and captures `m_begin = ClockType::now()`, which becomes the
process epoch. -/
def initGlobalClock (c : ClockState) : ProcState :=
  let (t, c1) := c.now
  { epoch := t, clock := c1 }

/-- The `ADVClock()` constructor: capture `m_begin = ClockType::now()`. -/
def mkADVClock (s : ProcState) : ADVClock × ProcState :=
  let (t, c1) := s.clock.now
  ({ m_begin := t }, { s with clock := c1 })

/-- `ADVClock::beginDur()`: `m_begin - GLOBAL_CLOCK.m_begin`.  Reads no
clock and mutates nothing. -/
def beginDur (w : ADVClock) (s : ProcState) : Int :=
  w.m_begin - s.epoch

/-- `ADVClock::nowDur()`: `ClockType::now() - GLOBAL_CLOCK.m_begin`.
Consumes one clock sample. -/
def nowDur (_w : ADVClock) (s : ProcState) : Int × ProcState :=
  let (t, c1) := s.clock.now
  (t - s.epoch, { s with clock := c1 })

/-- `ADVClock::tare()`: `m_begin = ClockType::now()`.  Consumes one clock
sample and overwrites the instance reference point. -/
def tare (_w : ADVClock) (s : ProcState) : ADVClock × ProcState :=
  let (t, c1) := s.clock.now
  ({ m_begin := t }, { s with clock := c1 })

/-- `ADVClock::elapsedRawNanoDur(tareClock)`:
`auto rtn = nowDur() - beginDur(); tareClock ? tare() : void(0); return rtn;`.
The return value is fixed before the conditional tare runs. -/
def elapsedRawNanoDur (w : ADVClock) (s : ProcState) (tareClock : Bool) :
    Int × ADVClock × ProcState :=
  let (nd, s1) := nowDur w s
  let rtn := nd - beginDur w s1
  if tareClock then
    let (w1, s2) := tare w s1
    (rtn, w1, s2)
  else
    (rtn, w, s1)

/-- `ADVClock::begin(precision)` (over the rational value semantics):
`RuntimeCast<rtnType>(beginDur(), Precision::Nanoseconds)` — the
`precision` parameter is accepted but the inner call hard-codes
`Precision::Nanoseconds`. -/
def ADVClock.begin (w : ADVClock) (s : ProcState) (_precision : Precision) : ℚ :=
  RuntimeCastFromNano (beginDur w s) Precision.Nanoseconds.toInt

/-- `ADVClock::now(precision)` (over the rational value semantics):
`RuntimeCast<rtnType>(nowDur(), Precision::Nanoseconds)` — the `precision`
parameter is accepted but the inner call hard-codes
`Precision::Nanoseconds`. -/
def ADVClock.now (w : ADVClock) (s : ProcState) (_precision : Precision) :
    ℚ × ProcState :=
  let (nd, s1) := nowDur w s
  (RuntimeCastFromNano nd Precision.Nanoseconds.toInt, s1)

/-- `ADVClock::elapsed(precision, tareClock)`:
`RuntimeCast<rtnType>(elapsedRawNanoDur(tareClock), precision)`. -/
def ADVClock.elapsed (w : ADVClock) (s : ProcState) (precision : Precision)
    (tareClock : Bool) : ℚ × ADVClock × ProcState :=
  let (r, w1, s1) := elapsedRawNanoDur w s tareClock
  (RuntimeCastFromNano r precision.toInt, w1, s1)

/-- Spec-side definition for the refinement claim: the spec states that
`elapsed` "algebraically simplifies to `ClockSource.now() - referenceTimePoint`".
This evaluates that direct expression on the same single clock sample. -/
def elapsedDirectSpec (w : ADVClock) (s : ProcState) : Int :=
  (s.clock.now).1 - w.m_begin

end ADVClockModel

namespace ADVClockModel

/-- Helper: when the selector misses every `case` label, the `default`
branch returns the raw nanosecond count. -/
theorem rtcfn_default (n p : Int) (h0 : ¬ p = 0) (h1 : ¬ p = 1) (h2 : ¬ p = 2)
    (h3 : ¬ p = 3) (h4 : ¬ p = 4) (h5 : ¬ p = 5) (h6 : ¬ p = 6) (h7 : ¬ p = 7)
    (h8 : ¬ p = 8) (h9 : ¬ p = 9) : RuntimeCastFromNano n p = (n : ℚ) := by
  simp [RuntimeCastFromNano, h0, h1, h2, h3, h4, h5, h6, h7, h8, h9]

/-- Helper: the conversion is linear in the nanosecond count — for every
selector it equals the count times the conversion of a single nanosecond. -/
theorem rtcfn_eq_cast_mul (n p : Int) :
    RuntimeCastFromNano n p = (n : ℚ) * RuntimeCastFromNano 1 p := by
  rcases eq_or_ne p 0 with h0 | h0
  · subst h0
    simp [RuntimeCastFromNano]
  rcases eq_or_ne p 1 with h1 | h1
  · subst h1
    simp only [RuntimeCastFromNano, SecsInMin, MinsInHour, HoursInDay,
      DaysInWeek, DaysInYear, MonthsInYear]
    norm_num
    ring
  rcases eq_or_ne p 2 with h2 | h2
  · subst h2
    simp only [RuntimeCastFromNano, SecsInMin, MinsInHour, HoursInDay,
      DaysInWeek, DaysInYear, MonthsInYear]
    norm_num
    ring
  rcases eq_or_ne p 3 with h3 | h3
  · subst h3
    simp only [RuntimeCastFromNano, SecsInMin, MinsInHour, HoursInDay,
      DaysInWeek, DaysInYear, MonthsInYear]
    norm_num
    ring
  rcases eq_or_ne p 4 with h4 | h4
  · subst h4
    simp only [RuntimeCastFromNano, SecsInMin, MinsInHour, HoursInDay,
      DaysInWeek, DaysInYear, MonthsInYear]
    norm_num
    ring
  rcases eq_or_ne p 5 with h5 | h5
  · subst h5
    simp only [RuntimeCastFromNano, SecsInMin, MinsInHour, HoursInDay,
      DaysInWeek, DaysInYear, MonthsInYear]
    norm_num
    ring
  rcases eq_or_ne p 6 with h6 | h6
  · subst h6
    simp only [RuntimeCastFromNano, SecsInMin, MinsInHour, HoursInDay,
      DaysInWeek, DaysInYear, MonthsInYear]
    norm_num
    ring
  rcases eq_or_ne p 7 with h7 | h7
  · subst h7
    simp only [RuntimeCastFromNano, SecsInMin, MinsInHour, HoursInDay,
      DaysInWeek, DaysInYear, MonthsInYear]
    norm_num
    ring
  rcases eq_or_ne p 8 with h8 | h8
  · subst h8
    simp only [RuntimeCastFromNano, SecsInMin, MinsInHour, HoursInDay,
      DaysInWeek, DaysInYear, MonthsInYear]
    norm_num
    ring
  rcases eq_or_ne p 9 with h9 | h9
  · subst h9
    simp only [RuntimeCastFromNano, SecsInMin, MinsInHour, HoursInDay,
      DaysInWeek, DaysInYear, MonthsInYear]
    norm_num
    ring
  rw [rtcfn_default n p h0 h1 h2 h3 h4 h5 h6 h7 h8 h9,
    rtcfn_default 1 p h0 h1 h2 h3 h4 h5 h6 h7 h8 h9]
  norm_num

/-- C1: for every signed nanosecond count `n`, `RuntimeCastFromNano` (with the
default floating-point return type, modelled exactly over the rationals)
returns the value of the chained division from the raw count for the
requested unit: Nanoseconds gives `n`; Microseconds `n/1000`; Milliseconds
`micros/1000`; Seconds `millis/1000`; Minutes `secs/60`; Hours `mins/60`;
Days `hours/24`; Weeks `days/7`; Years `days/365.24`; and Months is computed
by dividing the Years value by 12. -/
theorem runtimeCastFromNano_chained_divisions (n : Int) :
    RuntimeCastFromNano n Precision.Nanoseconds.toInt = (n : ℚ) ∧
    RuntimeCastFromNano n Precision.Microseconds.toInt = (n : ℚ) / 1000 ∧
    RuntimeCastFromNano n Precision.Milliseconds.toInt = (n : ℚ) / 1000 / 1000 ∧
    RuntimeCastFromNano n Precision.Seconds.toInt = (n : ℚ) / 1000 / 1000 / 1000 ∧
    RuntimeCastFromNano n Precision.Minutes.toInt
      = (n : ℚ) / 1000 / 1000 / 1000 / 60 ∧
    RuntimeCastFromNano n Precision.Hours.toInt
      = (n : ℚ) / 1000 / 1000 / 1000 / 60 / 60 ∧
    RuntimeCastFromNano n Precision.Days.toInt
      = (n : ℚ) / 1000 / 1000 / 1000 / 60 / 60 / 24 ∧
    RuntimeCastFromNano n Precision.Weeks.toInt
      = (n : ℚ) / 1000 / 1000 / 1000 / 60 / 60 / 24 / 7 ∧
    RuntimeCastFromNano n Precision.Years.toInt
      = (n : ℚ) / 1000 / 1000 / 1000 / 60 / 60 / 24 / (36524 / 100) ∧
    RuntimeCastFromNano n Precision.Months.toInt
      = (n : ℚ) / 1000 / 1000 / 1000 / 60 / 60 / 24 / (36524 / 100) / 12 := by
  refine ⟨?_, ?_, ?_, ?_, ?_, ?_, ?_, ?_, ?_, ?_⟩ <;>
    simp [RuntimeCastFromNano, Precision.toInt, SecsInMin, MinsInHour,
      HoursInDay, DaysInWeek, DaysInYear, MonthsInYear]

/-- C2: for every stopwatch state, process state and tare flag, the value of
`elapsedRawNanoDur`, computed as `nowDur() - beginDur()`
(`(now - ProcessEpoch) - (referenceTimePoint - ProcessEpoch)`), is exactly
the direct spec expression `ClockSource.now() - referenceTimePoint`: the
epoch terms cancel in integer nanosecond arithmetic. -/
theorem elapsedRawNanoDur_eq_elapsedDirectSpec (w : ADVClock) (s : ProcState)
    (b : Bool) :
    (elapsedRawNanoDur w s b).1 = elapsedDirectSpec w s := by
  cases b <;>
    simp [elapsedRawNanoDur, elapsedDirectSpec, nowDur, beginDur, tare,
      ClockState.now]

/-- C3: `elapsedRawNanoDur` with `tareClock = true` returns the duration
computed from the pre-reset reference point and the first clock sample; the
reset performed as a side effect stores the second, independent clock sample
into `m_begin` (two samples are consumed in total), so the reset happens
after the return value is fixed and does not reuse the measurement sample. -/
theorem elapsed_tare_uses_pre_reset_reference (w : ADVClock) (s : ProcState) :
    (elapsedRawNanoDur w s true).1 = s.clock.samples s.clock.idx - w.m_begin ∧
    (elapsedRawNanoDur w s true).2.1.m_begin
      = s.clock.samples (s.clock.idx + 1) ∧
    (elapsedRawNanoDur w s true).2.2.clock.idx = s.clock.idx + 2 := by
  refine ⟨?_, ?_, ?_⟩ <;>
    simp [elapsedRawNanoDur, nowDur, beginDur, tare, ClockState.now]

/-- C4: for every duration `d` and every unit selector outside the ten
defined ordinals `0..9`, the conversion does not fail: it falls back to
returning the raw nanosecond count of `d`. -/
theorem runtimeCastFromNano_out_of_range_fallback (d p : Int)
    (h : p < 0 ∨ 9 < p) :
    RuntimeCastFromNano d p = (d : ℚ) := by
  have h0 : ¬ p = 0 := by omega
  have h1 : ¬ p = 1 := by omega
  have h2 : ¬ p = 2 := by omega
  have h3 : ¬ p = 3 := by omega
  have h4 : ¬ p = 4 := by omega
  have h5 : ¬ p = 5 := by omega
  have h6 : ¬ p = 6 := by omega
  have h7 : ¬ p = 7 := by omega
  have h8 : ¬ p = 8 := by omega
  have h9 : ¬ p = 9 := by omega
  simp [RuntimeCastFromNano, h0, h1, h2, h3, h4, h5, h6, h7, h8, h9]

/-- Witness for C4: the out-of-range selector `10` on a duration of `5`
nanoseconds returns the raw count `5`. -/
theorem runtimeCastFromNano_out_of_range_fallback_witness :
    ((10 : Int) < 0 ∨ (9 : Int) < 10) ∧ RuntimeCastFromNano 5 10 = (5 : ℚ) :=
  ⟨by decide, runtimeCastFromNano_out_of_range_fallback 5 10 (by decide)⟩

/-- C5: for all durations `d ≥ 0` in nanoseconds, adjacent units satisfy the
fixed ratios (exact over the rational embedding): micros = nanos/1000,
millis = micros/1000, secs = millis/1000, mins = secs/60, hours = mins/60,
days = hours/24, weeks = days/7, years = days/365.24, months = years/12. -/
theorem convert_adjacent_unit_ratios (d : Int) (h : 0 ≤ d) :
    RuntimeCastFromNano d Precision.Microseconds.toInt
      = RuntimeCastFromNano d Precision.Nanoseconds.toInt / 1000 ∧
    RuntimeCastFromNano d Precision.Milliseconds.toInt
      = RuntimeCastFromNano d Precision.Microseconds.toInt / 1000 ∧
    RuntimeCastFromNano d Precision.Seconds.toInt
      = RuntimeCastFromNano d Precision.Milliseconds.toInt / 1000 ∧
    RuntimeCastFromNano d Precision.Minutes.toInt
      = RuntimeCastFromNano d Precision.Seconds.toInt / 60 ∧
    RuntimeCastFromNano d Precision.Hours.toInt
      = RuntimeCastFromNano d Precision.Minutes.toInt / 60 ∧
    RuntimeCastFromNano d Precision.Days.toInt
      = RuntimeCastFromNano d Precision.Hours.toInt / 24 ∧
    RuntimeCastFromNano d Precision.Weeks.toInt
      = RuntimeCastFromNano d Precision.Days.toInt / 7 ∧
    RuntimeCastFromNano d Precision.Years.toInt
      = RuntimeCastFromNano d Precision.Days.toInt / (36524 / 100) ∧
    RuntimeCastFromNano d Precision.Months.toInt
      = RuntimeCastFromNano d Precision.Years.toInt / 12 := by
  refine ⟨?_, ?_, ?_, ?_, ?_, ?_, ?_, ?_, ?_⟩ <;>
    simp [RuntimeCastFromNano, Precision.toInt, SecsInMin, MinsInHour,
      HoursInDay, DaysInWeek, DaysInYear, MonthsInYear]

/-- Witness for C5: the adjacent-unit ratios at the concrete duration of one
day, `86400000000000` nanoseconds. -/
theorem convert_adjacent_unit_ratios_witness :
    (0 : Int) ≤ 86400000000000 ∧
    (RuntimeCastFromNano 86400000000000 Precision.Microseconds.toInt
      = RuntimeCastFromNano 86400000000000 Precision.Nanoseconds.toInt / 1000 ∧
    RuntimeCastFromNano 86400000000000 Precision.Milliseconds.toInt
      = RuntimeCastFromNano 86400000000000 Precision.Microseconds.toInt / 1000 ∧
    RuntimeCastFromNano 86400000000000 Precision.Seconds.toInt
      = RuntimeCastFromNano 86400000000000 Precision.Milliseconds.toInt / 1000 ∧
    RuntimeCastFromNano 86400000000000 Precision.Minutes.toInt
      = RuntimeCastFromNano 86400000000000 Precision.Seconds.toInt / 60 ∧
    RuntimeCastFromNano 86400000000000 Precision.Hours.toInt
      = RuntimeCastFromNano 86400000000000 Precision.Minutes.toInt / 60 ∧
    RuntimeCastFromNano 86400000000000 Precision.Days.toInt
      = RuntimeCastFromNano 86400000000000 Precision.Hours.toInt / 24 ∧
    RuntimeCastFromNano 86400000000000 Precision.Weeks.toInt
      = RuntimeCastFromNano 86400000000000 Precision.Days.toInt / 7 ∧
    RuntimeCastFromNano 86400000000000 Precision.Years.toInt
      = RuntimeCastFromNano 86400000000000 Precision.Days.toInt / (36524 / 100) ∧
    RuntimeCastFromNano 86400000000000 Precision.Months.toInt
      = RuntimeCastFromNano 86400000000000 Precision.Years.toInt / 12) :=
  ⟨by decide, convert_adjacent_unit_ratios 86400000000000 (by decide)⟩

end ADVClockModel

namespace ADVClockModel

/-- C6: `begin(precision)` and `now(precision)` ignore their precision
argument: for every value of the precision parameter, `begin` returns the
unconverted raw nanosecond count of `referenceTimePoint - ProcessEpoch`, and
`now` returns the unconverted raw nanosecond count of
`ClockSource.now() - ProcessEpoch`, because both hard-code
`Precision::Nanoseconds` in the call to the conversion function; the results
at any two precision values agree. -/
theorem begin_now_ignore_precision (w : ADVClock) (s : ProcState)
    (p q : Precision) :
    ADVClock.begin w s p = ((beginDur w s : Int) : ℚ) ∧
    (ADVClock.now w s p).1 = (((nowDur w s).1 : Int) : ℚ) ∧
    (ADVClock.now w s p).2 = (nowDur w s).2 ∧
    ADVClock.begin w s p = ADVClock.begin w s q ∧
    ADVClock.now w s p = ADVClock.now w s q := by
  refine ⟨?_, ?_, rfl, rfl, rfl⟩ <;>
    simp [ADVClock.begin, ADVClock.now, RuntimeCastFromNano, Precision.toInt]

/-- C7: the process epoch is captured exactly once, at initialization of the
shared global clock instance (which consumes exactly one clock sample), and
no operation of any instance — construction, `nowDur`/`now`, `tare`,
`elapsedRawNanoDur`/`elapsed` with either tare flag — writes to the shared
epoch: each returns a process state with the epoch unchanged. -/
theorem epoch_captured_once_never_written (w : ADVClock) (s : ProcState)
    (c : ClockState) (p : Precision) (b : Bool) :
    (initGlobalClock c).epoch = c.samples c.idx ∧
    (initGlobalClock c).clock.idx = c.idx + 1 ∧
    (mkADVClock s).2.epoch = s.epoch ∧
    (nowDur w s).2.epoch = s.epoch ∧
    (ADVClock.now w s p).2.epoch = s.epoch ∧
    (tare w s).2.epoch = s.epoch ∧
    (elapsedRawNanoDur w s b).2.2.epoch = s.epoch ∧
    (ADVClock.elapsed w s p b).2.2.epoch = s.epoch := by
  cases b <;>
    refine ⟨rfl, rfl, rfl, rfl, rfl, rfl, ?_, ?_⟩ <;>
    simp [elapsedRawNanoDur, ADVClock.elapsed, nowDur, tare, ClockState.now]

/-- C8: query operations leave the instance state unchanged —
`elapsedRawNanoDur`/`elapsed` with `tareClock = false` return the instance
with `m_begin` untouched (`beginDur`, `begin` and `RuntimeCastFromNano`
return plain values and by their very types touch no state) — while the
mutating operations are exactly construction, `tare`, and elapsed with
`tareClock = true`, each storing a fresh clock sample into `m_begin`. -/
theorem queries_leave_m_begin_unchanged (w : ADVClock) (s : ProcState)
    (p : Precision) :
    (elapsedRawNanoDur w s false).2.1 = w ∧
    (ADVClock.elapsed w s p false).2.1 = w ∧
    (mkADVClock s).1.m_begin = s.clock.samples s.clock.idx ∧
    (tare w s).1.m_begin = s.clock.samples s.clock.idx ∧
    (elapsedRawNanoDur w s true).2.1.m_begin
      = s.clock.samples (s.clock.idx + 1) := by
  refine ⟨rfl, rfl, rfl, rfl, ?_⟩
  simp [elapsedRawNanoDur, nowDur, tare, ClockState.now]

/-- C9: a zero duration converts to zero in every unit: for every selector
`p`, defined ordinal or out of range, `RuntimeCastFromNano 0 p = 0`. -/
theorem convert_zero_duration_eq_zero (p : Int) :
    RuntimeCastFromNano 0 p = 0 := by
  simp [RuntimeCastFromNano, SecsInMin, MinsInHour, HoursInDay, DaysInWeek,
    DaysInYear, MonthsInYear]

/-- C10: negative durations are not guarded against: for every nanosecond
count `d` and every unit selector, the conversion (over the exact rational
embedding of the default floating-point return type) is odd in the duration,
`RuntimeCastFromNano (-d) p = -(RuntimeCastFromNano d p)`. -/
theorem convert_neg_duration_odd (d p : Int) :
    RuntimeCastFromNano (-d) p = -(RuntimeCastFromNano d p) := by
  rw [rtcfn_eq_cast_mul (-d) p, rtcfn_eq_cast_mul d p]
  push_cast
  ring

end ADVClockModel
